import Mathlib

set_option maxRecDepth 40000

/-!
Verification of the checkout-session engine of the `ucp-demo` repository
(`backend/business/checkout.py` and `backend/business/catalog.py`),
shallowly embedded in Lean 4.

Modelling conventions:
* Python `int` is `ℤ` (or `ℕ` where the source guarantees non-negativity).
* Python `float` arithmetic is modelled exactly as IEEE-754 binary64
  round-to-nearest-ties-to-even on rationals (`doubleRound` below); the
  modelled range ignores overflow/subnormals, which the program never reaches.
* `datetime` values are abstract integer ticks passed in as a `now` parameter.
* `uuid`-generated identifiers are passed in as explicit parameters
  (`session_id`, an `idGen : ℕ → String` for line-item ids, `order_id`).
* The process-wide dict `checkout_sessions` is an association list
  `Store := List (String × SessionData)`; dict lookup is first-match lookup.
* `raise HTTPException` is `Except.error`; each handler returns
  `Store × Except Err α` and leaves the store unchanged on the error path,
  mirroring the fact that every `raise` in the source happens before any
  store mutation.
-/

namespace UCP

/-! ## IEEE-754 binary64 model

Python floats are binary64 values.  A finite double is represented here as
an explicit pair `m * 2^s` (`Dbl`), and every arithmetic step of the source
is the correctly-rounded (round-to-nearest, ties-to-even, 53-bit
significand) result of the exact rational operation, exactly as CPython
computes it.  All computations below are on `ℤ`/`ℕ` so that they reduce
inside the kernel; the rational *value* of a `Dbl` (`Dbl.toRat`) is used
only in proofs.  Overflow and subnormals are outside the modelled range —
the program never reaches them. -/

/-- A binary64 value `m * 2^s`. -/
structure Dbl where
  m : ℤ
  s : ℤ
deriving DecidableEq, Repr

/-- The exact rational value of a `Dbl`. -/
def Dbl.toRat (d : Dbl) : ℚ := (d.m : ℚ) * (2:ℚ) ^ d.s

/-- The Python float literal `0.08`: the double nearest to 8/100. -/
def c08d : Dbl := ⟨5764607523034235, -56⟩

/-- The exact value of the Python float literal `0.08`. -/
def c08 : ℚ := 5764607523034235 / 2 ^ 56

/-- Round `num/den` (`den > 0`) to the nearest integer, ties to even
(`/` on `ℤ` is Euclidean division, i.e. floor division for `den > 0`). -/
def rneI (num den : ℤ) : ℤ :=
  let q := num / den
  let r := num - q * den
  if 2 * r < den then q
  else if den < 2 * r then q + 1
  else if q % 2 = 0 then q else q + 1

/-- Fuel-driven base-2 logarithm (structural recursion, so that it reduces
inside the kernel). -/
def log2fuel : ℕ → ℕ → ℕ
  | 0, _ => 0
  | fuel + 1, n => if n < 2 then 0 else log2fuel fuel (n / 2) + 1

/-- Base-2 logarithm: the unique `L` with `2^L ≤ n < 2^(L+1)` for `n ≥ 1`. -/
def natLog2 (n : ℕ) : ℕ := log2fuel n n

/-- The binade exponent of `a/b` for `a, b > 0`: the unique `e` with
`2^e ≤ a/b < 2^(e+1)`. -/
def expOfI (a b : ℤ) : ℤ :=
  let e0 : ℤ := (natLog2 a.toNat : ℤ) - (natLog2 b.toNat : ℤ)
  let ok : Bool :=
    if 0 ≤ e0 then decide (b * 2 ^ e0.toNat ≤ a)
    else decide (b ≤ a * 2 ^ (-e0).toNat)
  if ok then e0 else e0 - 1

/-- Round the positive rational `a/b` (`a, b > 0`) to the nearest binary64
value. -/
def posPair (a b : ℤ) : Dbl :=
  let e := expOfI a b
  let s := e - 52
  if 0 ≤ s then ⟨rneI a (b * 2 ^ s.toNat), s⟩
  else ⟨rneI (a * 2 ^ (-s).toNat) b, s⟩

/-- Round any rational `a/b` (`b > 0`) to the nearest binary64 value. -/
def roundPair (a b : ℤ) : Dbl :=
  if b ≤ 0 then ⟨0, 0⟩
  else if a < 0 then
    let d := posPair (-a) b
    ⟨-d.m, d.s⟩
  else if a = 0 then ⟨0, 0⟩
  else posPair a b

/-- Python `float(n)` for an `int` `n`: the nearest double. -/
def floatOfInt (n : ℤ) : Dbl := roundPair n 1

/-- Float multiplication: the exact product, rounded once. -/
def mulDbl (x y : Dbl) : Dbl :=
  let s := x.s + y.s
  if 0 ≤ s then roundPair (x.m * y.m * 2 ^ s.toNat) 1
  else roundPair (x.m * y.m) (2 ^ (-s).toNat)

/-- Python `int()` applied to a float: truncation toward zero. -/
def truncDbl (d : Dbl) : ℤ :=
  if 0 ≤ d.s then d.m * 2 ^ d.s.toNat
  else Int.tdiv d.m (2 ^ (-d.s).toNat)

/-- Python `n * 0.08` for an `int` `n`: `n` is converted to the nearest
double, then the product is rounded once. -/
def pyMul008 (n : ℤ) : Dbl := mulDbl (floatOfInt n) c08d

/-- Python `a / b` for ints (true division): CPython produces the exact
quotient rounded once to the nearest double. -/
def pyTrueDiv (a b : ℤ) : Dbl := roundPair a b

end UCP

/-- Python `str.upper()` (structural model of `String.toUpper`). -/
def String.pyUpper (s : String) : String := String.mk (s.data.map Char.toUpper)

namespace UCP

/-! ## Data model (`backend/schemas/checkout.py`) -/

/-- `CheckoutStatus` enum. -/
inductive CheckoutStatus where
  | INCOMPLETE
  | REQUIRES_ESCALATION
  | READY_FOR_COMPLETE
  | COMPLETE_IN_PROGRESS
  | COMPLETED
  | CANCELED
deriving DecidableEq, Repr

/-- `MessageType` enum. -/
inductive MessageType where
  | ERROR
  | WARNING
  | INFO
deriving DecidableEq, Repr

/-- `MessageSeverity` enum. -/
inductive MessageSeverity where
  | RECOVERABLE
  | REQUIRES_BUYER_INPUT
  | REQUIRES_BUYER_REVIEW
deriving DecidableEq, Repr

/-- `PostalAddress` model (all fields optional). -/
structure PostalAddress where
  street_address : Option String := none
  extended_address : Option String := none
  address_locality : Option String := none
  address_region : Option String := none
  postal_code : Option String := none
  address_country : Option String := none
  first_name : Option String := none
  last_name : Option String := none
deriving DecidableEq, Repr

/-- `Buyer` model. -/
structure Buyer where
  email : Option String := none
  phone : Option String := none
  first_name : Option String := none
  last_name : Option String := none
  billing_address : Option PostalAddress := none
deriving DecidableEq, Repr

/-- Catalog `Item` model. -/
structure Item where
  id : String
  title : String
  description : Option String := none
  image_url : Option String := none
  price : ℤ
  currency : String := "USD"
deriving DecidableEq, Repr

/-- `LineItemRequest` model (`quantity` has a `ge=1` pydantic constraint,
so it is a positive natural here). -/
structure LineItemRequest where
  product_id : String
  quantity : ℕ := 1
deriving DecidableEq, Repr

/-- `LineItem` model. -/
structure LineItem where
  id : String
  product_id : String
  title : String
  description : Option String := none
  image_url : Option String := none
  quantity : ℕ
  unit_price : ℤ
  total_price : ℤ
  currency : String := "USD"
deriving DecidableEq, Repr

/-- `FulfillmentOption` model. -/
structure FulfillmentOption where
  id : String
  title : String
  description : Option String := none
  price : ℤ
  currency : String := "USD"
  estimated_delivery : Option String := none
deriving DecidableEq, Repr

/-- `Fulfillment` model. -/
structure Fulfillment where
  type : String := "shipping"
  address : Option PostalAddress := none
  selected_option_id : Option String := none
  available_options : List FulfillmentOption := []
deriving DecidableEq, Repr

/-- Applied `Discount` model. -/
structure Discount where
  code : String
  title : String
  amount : ℤ
  currency : String := "USD"
deriving DecidableEq, Repr

/-- `Total` model. -/
structure Total where
  subtotal : ℤ
  discount : ℤ := 0
  shipping : ℤ := 0
  tax : ℤ := 0
  total : ℤ
  currency : String := "USD"
deriving DecidableEq, Repr

/-- `Message` model (`severity` present only for errors). -/
structure Message where
  type : MessageType
  code : String
  content : String
  severity : Option MessageSeverity := none
deriving DecidableEq, Repr

/-- `Link` model. -/
structure Link where
  type : String
  href : String
  title : Option String := none
deriving DecidableEq, Repr

/-- `OrderConfirmation` model. -/
structure OrderConfirmation where
  id : String
  permalink_url : Option String := none
  created_at : ℤ
deriving DecidableEq, Repr

/-- Opaque payment payload of `CompleteCheckoutRequest.payment`
(a `dict[str, Any]`; only its presence matters to the engine). -/
structure PaymentInfo where
  fields : List (String × String) := []
deriving DecidableEq, Repr

/-- `CreateCheckoutRequest` / `UpdateCheckoutRequest` common payload
(`CheckoutSessionBase`). -/
structure CheckoutRequest where
  line_items : List LineItemRequest := []
  buyer : Option Buyer := none
  fulfillment : Option Fulfillment := none
  discount_codes : List String := []
deriving DecidableEq, Repr

/-- `CompleteCheckoutRequest`. -/
structure CompleteRequest where
  payment : Option PaymentInfo := none
deriving DecidableEq, Repr

/-- The stored per-session dict held in `checkout_sessions`. -/
structure SessionData where
  id : String
  line_items : List LineItem
  buyer : Option Buyer
  fulfillment : Option Fulfillment
  discounts : List Discount
  status : Option CheckoutStatus
  order : Option OrderConfirmation
  created_at : ℤ
  updated_at : ℤ
  expires_at : ℤ
deriving DecidableEq, Repr

/-- The full `CheckoutSession` response body (UCP metadata omitted: it is a
constant irrelevant to every property considered here). -/
structure CheckoutSession where
  id : String
  status : CheckoutStatus
  line_items : List LineItem
  buyer : Option Buyer
  fulfillment : Option Fulfillment
  discounts : List Discount
  totals : Total
  messages : List Message
  links : List Link
  continue_url : String
  expires_at : ℤ
  order : Option OrderConfirmation
  created_at : ℤ
  updated_at : ℤ
deriving DecidableEq, Repr

/-! ## Catalog (`backend/business/catalog.py`) -/

/-- The demo product catalog `CATALOG` (insertion-ordered dict). -/
def CATALOG : List (String × Item) :=
  [ ("coffee_small",
     { id := "coffee_small", title := "Small Coffee",
       description := some "8oz freshly brewed coffee",
       image_url := some "/images/coffee.jpeg", price := 299 }),
    ("coffee_medium",
     { id := "coffee_medium", title := "Medium Coffee",
       description := some "12oz freshly brewed coffee",
       image_url := some "/images/coffee.jpeg", price := 399 }),
    ("coffee_large",
     { id := "coffee_large", title := "Large Coffee",
       description := some "16oz freshly brewed coffee",
       image_url := some "/images/coffee.jpeg", price := 499 }),
    ("latte_medium",
     { id := "latte_medium", title := "Medium Latte",
       description := some "12oz espresso with steamed milk",
       image_url := some "/images/latte.jpeg", price := 549 }),
    ("latte_large",
     { id := "latte_large", title := "Large Latte",
       description := some "16oz espresso with steamed milk",
       image_url := some "/images/latte.jpeg", price := 649 }),
    ("cappuccino",
     { id := "cappuccino", title := "Cappuccino",
       description := some "Espresso with foamed milk",
       image_url := some "/images/cappuccino.jpeg", price := 549 }),
    ("espresso_single",
     { id := "espresso_single", title := "Single Espresso",
       description := some "Single shot of espresso",
       image_url := some "/images/espresso.jpeg", price := 299 }),
    ("espresso_double",
     { id := "espresso_double", title := "Double Espresso",
       description := some "Double shot of espresso",
       image_url := some "/images/espresso.jpeg", price := 399 }),
    ("muffin_blueberry",
     { id := "muffin_blueberry", title := "Blueberry Muffin",
       description := some "Fresh baked blueberry muffin",
       image_url := some "/images/muffin_blueberry.jpeg", price := 349 }),
    ("muffin_chocolate",
     { id := "muffin_chocolate", title := "Chocolate Chip Muffin",
       description := some "Fresh baked chocolate chip muffin",
       image_url := some "/images/muffin_chocolate.jpeg", price := 349 }),
    ("croissant",
     { id := "croissant", title := "Butter Croissant",
       description := some "Flaky butter croissant",
       image_url := some "/images/croissant.jpeg", price := 399 }),
    ("bagel",
     { id := "bagel", title := "Everything Bagel",
       description := some "Everything bagel with cream cheese",
       image_url := some "/images/bagel.jpeg", price := 449 }) ]

/-- `get_product`. -/
def get_product (product_id : String) : Option Item :=
  (CATALOG.lookup product_id)

/-- Discount rule kinds appearing in `DISCOUNT_CODES`. -/
inductive DiscountType where
  | percentage
  | fixed
  | free_shipping
deriving DecidableEq, Repr

/-- One entry of `DISCOUNT_CODES`. -/
structure DiscountInfo where
  title : String
  type : DiscountType
  value : ℤ
deriving DecidableEq, Repr

/-- The `DISCOUNT_CODES` table. -/
def DISCOUNT_CODES : List (String × DiscountInfo) :=
  [ ("DEMO20", { title := "Demo Discount", type := .percentage, value := 20 }),
    ("SAVE5", { title := "Save $5", type := .fixed, value := 500 }),
    ("FREESHIP", { title := "Free Shipping", type := .free_shipping, value := 0 }) ]

/-- `validate_discount_code` (upper-cases, then looks up). -/
def validate_discount_code (code : String) : Option DiscountInfo :=
  DISCOUNT_CODES.lookup code.pyUpper

/-- The `FULFILLMENT_OPTIONS` table. -/
def FULFILLMENT_OPTIONS : List FulfillmentOption :=
  [ { id := "pickup", title := "In-Store Pickup",
      description := some "Pick up at our location", price := 0,
      estimated_delivery := some "Ready in 15 minutes" },
    { id := "standard", title := "Standard Delivery",
      description := some "Delivered to your door", price := 499,
      estimated_delivery := some "30-45 minutes" },
    { id := "express", title := "Express Delivery",
      description := some "Priority delivery", price := 899,
      estimated_delivery := some "15-20 minutes" } ]

/-! ## Pure engine functions (`backend/business/checkout.py`) -/

/-- The subtotal expression `sum(item.total_price for item in line_items)`. -/
def subtotalOf (line_items : List LineItem) : ℤ :=
  (line_items.map (·.total_price)).sum

/-- `calculate_totals`. -/
def calculate_totals (line_items : List LineItem) (discounts : List Discount)
    (fulfillment : Option Fulfillment) : Total :=
  let subtotal := subtotalOf line_items
  let discount_amount := (discounts.map (·.amount)).sum
  let shipping : ℤ :=
    match fulfillment with
    | none => 0
    | some f =>
      match f.selected_option_id with
      | none => 0
      | some oid =>
        match FULFILLMENT_OPTIONS.find? (fun opt => opt.id == oid) with
        | none => 0
        | some opt =>
          if discounts.any (fun d => d.code.pyUpper == "FREESHIP") then 0
          else opt.price
  let taxable := max 0 (subtotal - discount_amount)
  let tax := truncDbl (pyMul008 taxable)
  let total := subtotal - discount_amount + shipping + tax
  { subtotal := subtotal, discount := discount_amount, shipping := shipping,
    tax := tax, total := max 0 total }

/-- `determine_status`. -/
def determine_status (line_items : List LineItem)
    (fulfillment : Option Fulfillment) (messages : List Message) :
    CheckoutStatus :=
  let has_escalation := messages.any (fun m =>
    m.type == .ERROR &&
      (m.severity == some .REQUIRES_BUYER_INPUT ||
       m.severity == some .REQUIRES_BUYER_REVIEW))
  if has_escalation then .REQUIRES_ESCALATION
  else
    let has_errors := messages.any (fun m =>
      m.type == .ERROR && m.severity == some .RECOVERABLE)
    if has_errors then .INCOMPLETE
    else if line_items.isEmpty then .INCOMPLETE
    else
      match fulfillment with
      | none => .INCOMPLETE
      | some f =>
        match f.selected_option_id with
        | none => .INCOMPLETE
        | some oid =>
          if (oid == "standard" || oid == "express") && f.address == none then
            .INCOMPLETE
          else .READY_FOR_COMPLETE

/-- `build_messages`. -/
def build_messages (line_items : List LineItem)
    (fulfillment : Option Fulfillment) : List Message :=
  (if line_items.isEmpty then
    [{ type := .WARNING, code := "empty_cart",
       content := "Your cart is empty. Add some items to continue." }]
   else []) ++
  (match fulfillment with
   | none =>
     [{ type := .INFO, code := "select_fulfillment",
        content := "Please select a fulfillment option." }]
   | some f =>
     match f.selected_option_id with
     | none =>
       [{ type := .ERROR, code := "fulfillment_required",
          content := "Please select a fulfillment option to continue.",
          severity := some .RECOVERABLE }]
     | some oid =>
       if (oid == "standard" || oid == "express") && f.address == none then
         [{ type := .ERROR, code := "address_required",
            content := "Please provide a delivery address.",
            severity := some .RECOVERABLE }]
       else [])

/-- The constant `links` list of every response. -/
def defaultLinks : List Link :=
  [ { type := "privacy_policy", href := "https://example.com/privacy",
      title := some "Privacy Policy" },
    { type := "terms_of_service", href := "https://example.com/terms",
      title := some "Terms of Service" } ]

/-- `build_checkout_response`. -/
def build_checkout_response (session_data : SessionData) : CheckoutSession :=
  let line_items := session_data.line_items
  let discounts := session_data.discounts
  let fulfillment := session_data.fulfillment
  let messages := build_messages line_items fulfillment
  let status : CheckoutStatus :=
    match session_data.status with
    | some .COMPLETED => .COMPLETED
    | some .CANCELED => .CANCELED
    | _ => determine_status line_items fulfillment messages
  let totals := calculate_totals line_items discounts fulfillment
  { id := session_data.id, status := status, line_items := line_items,
    buyer := session_data.buyer, fulfillment := fulfillment,
    discounts := discounts, totals := totals, messages := messages,
    links := defaultLinks,
    continue_url := "http://localhost:8000/checkout/" ++ session_data.id,
    expires_at := session_data.expires_at, order := session_data.order,
    created_at := session_data.created_at,
    updated_at := session_data.updated_at }

/-! ## Engine operations and the session store -/

/-- Caller-visible error taxonomy (each `raise HTTPException` of the source). -/
inductive Err where
  | productNotFound (product_id : String)
  | sessionNotFound
  | invalidState (detail : String)
  | paymentRequired
deriving DecidableEq, Repr

/-- The process-wide dict `checkout_sessions`. -/
def Store := List (String × SessionData)

/-- Dict lookup. -/
def Store.lookup (store : Store) (sid : String) : Option SessionData :=
  List.lookup sid store

/-- In-place mutation `session_data.update(...)` of the entry stored under
`sid`: every binding of that key is replaced. -/
def Store.set (store : Store) (sid : String) (sd : SessionData) : Store :=
  store.map (fun kv => if kv.1 = sid then (kv.1, sd) else kv)

/-- Dict write `checkout_sessions[sid] = sd`: overwrite when the key is
present, append otherwise (Python dicts preserve insertion order). -/
def Store.insert (store : Store) (sid : String) (sd : SessionData) : Store :=
  match store.lookup sid with
  | some _ => store.set sid sd
  | none => List.append store [(sid, sd)]

/-- The discounts of the session stored under `sid` ([] when absent). -/
def discountsAt (store : Store) (sid : String) : List Discount :=
  match store.lookup sid with
  | some sd => sd.discounts
  | none => []

/-- The line-item resolution loop shared by `create_checkout` and
`update_checkout`: resolves each request against the catalog, aborting the
whole operation on the first unknown product id.  `idGen i` stands for the
`li_<uuid>` generated for the `i`-th item. -/
def processLineItems (reqs : List LineItemRequest) (idGen : ℕ → String)
    (i : ℕ := 0) : Except Err (List LineItem) :=
  match reqs with
  | [] => .ok []
  | item_req :: rest =>
    match get_product item_req.product_id with
    | none => .error (.productNotFound item_req.product_id)
    | some product =>
      match processLineItems rest idGen (i + 1) with
      | .error e => .error e
      | .ok tail =>
        .ok ({ id := idGen i, product_id := product.id, title := product.title,
               description := product.description,
               image_url := product.image_url, quantity := item_req.quantity,
               unit_price := product.price,
               total_price := product.price * item_req.quantity } :: tail)

/-- The discount-code loop shared by `create_checkout` and `update_checkout`:
unknown codes are silently dropped; valid codes are applied in order with the
code canonicalized to upper case.  The percentage amount reproduces Python
`int(subtotal * value / 100)` (correctly rounded float true division). -/
def processDiscounts (line_items : List LineItem) (codes : List String) :
    List Discount :=
  codes.filterMap (fun code =>
    match validate_discount_code code with
    | none => none
    | some info =>
      let subtotal := subtotalOf line_items
      let amount : ℤ :=
        match info.type with
        | .percentage => truncDbl (pyTrueDiv (subtotal * info.value) 100)
        | .fixed => min info.value subtotal
        | .free_shipping => 0
      some { code := code.pyUpper, title := info.title, amount := amount })

/-- The fulfillment built by `create_checkout` (always present, options
snapshot copied from the catalog). -/
def buildCreateFulfillment (req : CheckoutRequest) : Fulfillment :=
  { type := "shipping",
    address := match req.fulfillment with
               | none => none
               | some f => f.address,
    selected_option_id := match req.fulfillment with
                          | none => none
                          | some f => f.selected_option_id,
    available_options := FULFILLMENT_OPTIONS }

/-- `create_checkout`.  `session_id`, `idGen` and `now` stand for the
freshly generated uuid, the line-item uuids and `datetime.now`. -/
def create_checkout (store : Store) (req : CheckoutRequest)
    (session_id : String) (idGen : ℕ → String) (now : ℤ) :
    Store × Except Err CheckoutSession :=
  match processLineItems req.line_items idGen with
  | .error e => (store, .error e)
  | .ok line_items =>
    let discounts := processDiscounts line_items req.discount_codes
    let fulfillment := buildCreateFulfillment req
    let session_data : SessionData :=
      { id := session_id, line_items := line_items, buyer := req.buyer,
        fulfillment := some fulfillment, discounts := discounts,
        status := none, order := none, created_at := now, updated_at := now,
        expires_at := now + 24 * 3600 }
    (store.insert session_id session_data,
     .ok (build_checkout_response session_data))

/-- `get_checkout` (read). -/
def get_checkout (store : Store) (session_id : String) :
    Store × Except Err CheckoutSession :=
  match store.lookup session_id with
  | none => (store, .error .sessionNotFound)
  | some session_data => (store, .ok (build_checkout_response session_data))

/-- `update_checkout` (full-state replace). -/
def update_checkout (store : Store) (session_id : String)
    (req : CheckoutRequest) (idGen : ℕ → String) (now : ℤ) :
    Store × Except Err CheckoutSession :=
  match store.lookup session_id with
  | none => (store, .error .sessionNotFound)
  | some session_data =>
    if session_data.status = some .COMPLETED ∨
       session_data.status = some .CANCELED then
      (store,
       .error (.invalidState
         "Cannot update a completed or canceled checkout session"))
    else
      match processLineItems req.line_items idGen with
      | .error e => (store, .error e)
      | .ok line_items =>
        let discounts := processDiscounts line_items req.discount_codes
        let fulfillment : Option Fulfillment :=
          match req.fulfillment with
          | none => none
          | some f =>
            some { type := "shipping", address := f.address,
                   selected_option_id := f.selected_option_id,
                   available_options := FULFILLMENT_OPTIONS }
        let session_data' : SessionData :=
          { session_data with
            line_items := line_items, buyer := req.buyer,
            fulfillment := fulfillment, discounts := discounts,
            updated_at := now }
        (store.set session_id session_data',
         .ok (build_checkout_response session_data'))

/-- `complete_checkout`.  `order_id` stands for the generated order uuid. -/
def complete_checkout (store : Store) (session_id : String)
    (req : CompleteRequest) (order_id : String) (now : ℤ) :
    Store × Except Err CheckoutSession :=
  match store.lookup session_id with
  | none => (store, .error .sessionNotFound)
  | some session_data =>
    if session_data.status = some .COMPLETED then
      (store, .error (.invalidState "Checkout session is already completed"))
    else if session_data.status = some .CANCELED then
      (store,
       .error (.invalidState "Cannot complete a canceled checkout session"))
    else
      match req.payment with
      | none => (store, .error .paymentRequired)
      | some _ =>
        let order : OrderConfirmation :=
          { id := "ord_" ++ order_id,
            permalink_url := some ("http://localhost:8000/orders/ord_" ++ order_id),
            created_at := now }
        let session_data' : SessionData :=
          { session_data with
            status := some .COMPLETED, order := some order, updated_at := now }
        (store.set session_id session_data',
         .ok (build_checkout_response session_data'))

/-- `cancel_checkout`. -/
def cancel_checkout (store : Store) (session_id : String) (now : ℤ) :
    Store × Except Err CheckoutSession :=
  match store.lookup session_id with
  | none => (store, .error .sessionNotFound)
  | some session_data =>
    if session_data.status = some .COMPLETED then
      (store, .error (.invalidState "Cannot cancel a completed checkout session"))
    else if session_data.status = some .CANCELED then
      (store, .error (.invalidState "Checkout session is already canceled"))
    else
      let session_data' : SessionData :=
        { session_data with status := some .CANCELED, updated_at := now }
      (store.set session_id session_data',
       .ok (build_checkout_response session_data'))

/-- Does a handler result denote an `InvalidState` conflict? -/
def isInvalidState : Except Err CheckoutSession → Bool
  | .error (.invalidState _) => true
  | _ => false

end UCP

namespace UCP

/-- **C1.** For every stored session whose stored status is `COMPLETED` or
`CANCELED`, each of the mutating operations `replace` (`update_checkout`),
`complete` and `cancel` fails with an `InvalidState` conflict, and the store
— hence every field of the stored session — is exactly the same after the
failed call as before it. -/
theorem terminal_sessions_reject_all_mutations
    (store : Store) (sid : String) (sd : SessionData)
    (req : CheckoutRequest) (creq : CompleteRequest)
    (idGen : ℕ → String) (order_id : String) (now : ℤ)
    (hlook : store.lookup sid = some sd)
    (hterm : sd.status = some .COMPLETED ∨ sd.status = some .CANCELED) :
    ((update_checkout store sid req idGen now).1 = store ∧
      isInvalidState (update_checkout store sid req idGen now).2 = true) ∧
    ((complete_checkout store sid creq order_id now).1 = store ∧
      isInvalidState (complete_checkout store sid creq order_id now).2 = true) ∧
    ((cancel_checkout store sid now).1 = store ∧
      isInvalidState (cancel_checkout store sid now).2 = true) := by
  refine ⟨?_, ?_, ?_⟩
  · rcases hterm with h | h <;>
      simp [update_checkout, hlook, h, isInvalidState]
  · rcases hterm with h | h
    · simp [complete_checkout, hlook, h, isInvalidState]
    · rcases eq_or_ne sd.status (some .COMPLETED) with h' | h' <;>
        simp [complete_checkout, hlook, h, h', isInvalidState]
  · rcases hterm with h | h
    · simp [cancel_checkout, hlook, h, isInvalidState]
    · rcases eq_or_ne sd.status (some .COMPLETED) with h' | h' <;>
        simp [cancel_checkout, hlook, h, h', isInvalidState]

/-- Witness instantiating C1 at a concrete canceled session. -/
theorem terminal_sessions_reject_all_mutations_witness :
    (([(("cs_w1" : String),
        ({ id := "cs_w1", line_items := [], buyer := none, fulfillment := none,
           discounts := [], status := some .CANCELED, order := none,
           created_at := 0, updated_at := 0, expires_at := 86400 } :
          SessionData))] : Store).lookup "cs_w1" = some
        { id := "cs_w1", line_items := [], buyer := none, fulfillment := none,
          discounts := [], status := some .CANCELED, order := none,
          created_at := 0, updated_at := 0, expires_at := 86400 }) ∧
    ((update_checkout
        [("cs_w1",
          { id := "cs_w1", line_items := [], buyer := none, fulfillment := none,
            discounts := [], status := some .CANCELED, order := none,
            created_at := 0, updated_at := 0, expires_at := 86400 })]
        "cs_w1" {} (fun _ => "li_w") 5).1 =
      [("cs_w1",
        { id := "cs_w1", line_items := [], buyer := none, fulfillment := none,
          discounts := [], status := some .CANCELED, order := none,
          created_at := 0, updated_at := 0, expires_at := 86400 })] ∧
      isInvalidState (update_checkout
        [("cs_w1",
          { id := "cs_w1", line_items := [], buyer := none, fulfillment := none,
            discounts := [], status := some .CANCELED, order := none,
            created_at := 0, updated_at := 0, expires_at := 86400 })]
        "cs_w1" {} (fun _ => "li_w") 5).2 = true) := by
  refine ⟨rfl, ?_⟩
  exact (terminal_sessions_reject_all_mutations
    [("cs_w1",
      { id := "cs_w1", line_items := [], buyer := none, fulfillment := none,
        discounts := [], status := some .CANCELED, order := none,
        created_at := 0, updated_at := 0, expires_at := 86400 })]
    "cs_w1"
    { id := "cs_w1", line_items := [], buyer := none, fulfillment := none,
      discounts := [], status := some .CANCELED, order := none,
      created_at := 0, updated_at := 0, expires_at := 86400 }
    {} {} (fun _ => "li_w") "ord_w" 5 rfl (Or.inr rfl)).1

/-- **C4.** Shipping is 0 when fulfillment is absent or no option is
selected; otherwise it equals the catalog price of the selected fulfillment
option, unless an applied discount has code `FREESHIP` (case-insensitively),
in which case shipping is 0 regardless of that option's price. -/
theorem shipping_policy (line_items : List LineItem)
    (discounts : List Discount) (fulfillment : Option Fulfillment) :
    (fulfillment = none →
      (calculate_totals line_items discounts fulfillment).shipping = 0) ∧
    (∀ f, fulfillment = some f → f.selected_option_id = none →
      (calculate_totals line_items discounts fulfillment).shipping = 0) ∧
    (∀ f oid opt, fulfillment = some f → f.selected_option_id = some oid →
      opt ∈ FULFILLMENT_OPTIONS → opt.id = oid →
      (((∃ d ∈ discounts, d.code.pyUpper = "FREESHIP") →
        (calculate_totals line_items discounts fulfillment).shipping = 0) ∧
       ((∀ d ∈ discounts, d.code.pyUpper ≠ "FREESHIP") →
        (calculate_totals line_items discounts fulfillment).shipping =
          opt.price))) := by
  refine ⟨?_, ?_, ?_⟩
  · rintro rfl
    simp [calculate_totals]
  · rintro f rfl hsel
    simp [calculate_totals, hsel]
  · rintro f oid opt rfl hsel hmem hid
    have hfree : ∀ (b : Bool),
        discounts.any (fun d => d.code.pyUpper == "FREESHIP") = b →
        ((b = true → (calculate_totals line_items discounts (some f)).shipping = 0) ∧
         (b = false → (calculate_totals line_items discounts (some f)).shipping = opt.price)) := by
      intro b hb
      have hfind : FULFILLMENT_OPTIONS.find? (fun o => o.id == oid) = some opt := by
        subst hid
        simp [FULFILLMENT_OPTIONS] at hmem
        rcases hmem with h | h | h <;> subst h <;> rfl
      constructor <;> intro hbval <;> subst hbval <;>
        simp [calculate_totals, hsel, hfind, hb]
    rcases hany : discounts.any (fun d => d.code.pyUpper == "FREESHIP") with _ | _
    · refine ⟨?_, ?_⟩
      · intro hex
        exfalso
        rcases hex with ⟨d, hd, hcode⟩
        have : discounts.any (fun d => d.code.pyUpper == "FREESHIP") = true :=
          List.any_eq_true.mpr ⟨d, hd, by simp [hcode]⟩
        rw [hany] at this
        exact Bool.false_ne_true this
      · intro _
        exact (hfree false hany).2 rfl
    · refine ⟨?_, ?_⟩
      · intro _
        exact (hfree true hany).1 rfl
      · intro hall
        exfalso
        rcases List.any_eq_true.mp hany with ⟨d, hd, hcode⟩
        exact hall d hd (by simpa using hcode)

/-- Witness instantiating C4: the spec's free-shipping example (option
`standard` priced 499 with a `FREESHIP` discount gives shipping 0) and the
no-discount case (shipping 499). -/
theorem shipping_policy_witness :
    ((calculate_totals
        [{ id := "li_w", product_id := "latte_medium", title := "Medium Latte",
           quantity := 2, unit_price := 549, total_price := 1098 }]
        [{ code := "FREESHIP", title := "Free Shipping", amount := 0 }]
        (some { selected_option_id := some "standard" })).shipping = 0) ∧
    ((calculate_totals
        [{ id := "li_w", product_id := "latte_medium", title := "Medium Latte",
           quantity := 2, unit_price := 549, total_price := 1098 }]
        []
        (some { selected_option_id := some "standard" })).shipping = 499) := by
  constructor
  · exact ((shipping_policy
      [{ id := "li_w", product_id := "latte_medium", title := "Medium Latte",
         quantity := 2, unit_price := 549, total_price := 1098 }]
      [{ code := "FREESHIP", title := "Free Shipping", amount := 0 }]
      (some { selected_option_id := some "standard" })).2.2
      { selected_option_id := some "standard" } "standard"
      { id := "standard", title := "Standard Delivery",
        description := some "Delivered to your door", price := 499,
        estimated_delivery := some "30-45 minutes" }
      rfl rfl (by decide) rfl).1
      ⟨{ code := "FREESHIP", title := "Free Shipping", amount := 0 },
       by decide, by decide⟩
  · exact ((shipping_policy
      [{ id := "li_w", product_id := "latte_medium", title := "Medium Latte",
         quantity := 2, unit_price := 549, total_price := 1098 }]
      []
      (some { selected_option_id := some "standard" })).2.2
      { selected_option_id := some "standard" } "standard"
      { id := "standard", title := "Standard Delivery",
        description := some "Delivered to your door", price := 499,
        estimated_delivery := some "30-45 minutes" }
      rfl rfl (by decide) rfl).2 (by simp)

/-- **C10.** When fulfillment is present and the selected option id does not
appear in the catalog's fulfillment-option list, the totals calculator
returns shipping 0 (the unknown option contributes nothing and causes no
error — `calculate_totals` is total). -/
theorem unknown_selected_option_gives_zero_shipping
    (line_items : List LineItem) (discounts : List Discount)
    (f : Fulfillment) (oid : String)
    (hsel : f.selected_option_id = some oid)
    (hunknown : ∀ opt ∈ FULFILLMENT_OPTIONS, opt.id ≠ oid) :
    (calculate_totals line_items discounts (some f)).shipping = 0 := by
  have hfind : FULFILLMENT_OPTIONS.find? (fun o => o.id == oid) = none := by
    rw [List.find?_eq_none]
    intro opt hmem
    simpa using hunknown opt hmem
  simp [calculate_totals, hsel, hfind]

/-- Helper: overwriting the entry stored under a present key makes lookup
return the new value. -/
theorem store_set_lookup (store : Store) (sid : String) (sd v : SessionData)
    (hlook : store.lookup sid = some sd) :
    (store.set sid v).lookup sid = some v := by
  induction store with
  | nil => simp [Store.lookup, List.lookup] at hlook
  | cons kv rest ih =>
    rcases kv with ⟨k, w⟩
    by_cases hk : k = sid
    · subst hk
      have hset : Store.set ((k, w) :: rest) k v = (k, v) :: Store.set rest k v := by
        simp [Store.set]
      rw [hset]
      simp [Store.lookup, List.lookup]
    · have hbeq : (sid == k) = false := beq_eq_false_iff_ne.mpr (Ne.symm hk)
      have hset : Store.set ((k, w) :: rest) sid v =
          (k, w) :: Store.set rest sid v := by
        simp [Store.set, hk]
      simp only [Store.lookup, List.lookup, hbeq] at hlook
      rw [hset]
      simp only [Store.lookup, List.lookup, hbeq]
      exact ih hlook

/-- Helper: a dict write makes lookup of that key return the new value. -/
theorem store_insert_lookup (store : Store) (sid : String) (sd : SessionData) :
    (store.insert sid sd).lookup sid = some sd := by
  rcases hlook : store.lookup sid with _ | old
  · have happ : ∀ (st : Store), st.lookup sid = none →
        (Store.lookup (List.append st [(sid, sd)]) sid) = some sd := by
      intro st
      induction st with
      | nil => intro _; simp [Store.lookup, List.lookup]
      | cons kv rest ih =>
        intro hnone
        rcases kv with ⟨k, w⟩
        rcases hbeq : (sid == k) with _ | _
        · simp only [Store.lookup, List.lookup, hbeq] at hnone
          simp only [Store.lookup, List.append_eq, List.cons_append,
            List.lookup, hbeq]
          exact ih hnone
        · simp only [Store.lookup, List.lookup, hbeq] at hnone
          exact Option.noConfusion hnone
    simp only [Store.insert, hlook]
    exact happ store hlook
  · simp only [Store.insert, hlook]
    exact store_set_lookup store sid old sd hlook

/-- Helper: the line-item loop fails with `ProductNotFound` as soon as some
requested product id does not resolve. -/
theorem processLineItems_error (reqs : List LineItemRequest)
    (idGen : ℕ → String) (i : ℕ)
    (hbad : ∃ r ∈ reqs, get_product r.product_id = none) :
    ∃ pid, processLineItems reqs idGen i = .error (.productNotFound pid) ∧
      get_product pid = none := by
  induction reqs generalizing i with
  | nil => simp at hbad
  | cons r rest ih =>
    rcases hget : get_product r.product_id with _ | p
    · exact ⟨r.product_id, by simp [processLineItems, hget], hget⟩
    · have hbad' : ∃ x ∈ rest, get_product x.product_id = none := by
        rcases hbad with ⟨x, hx, hxnone⟩
        rcases List.mem_cons.mp hx with h | h
        · subst h; rw [hget] at hxnone; exact absurd hxnone (by simp)
        · exact ⟨x, h, hxnone⟩
      rcases ih (i + 1) hbad' with ⟨pid, heq, hnone⟩
      exact ⟨pid, by simp [processLineItems, hget, heq], hnone⟩

/-- Helper: when every requested product resolves, the line-item loop
succeeds and produces, in order, one resolved line item per request. -/
theorem processLineItems_ok (reqs : List LineItemRequest)
    (idGen : ℕ → String) (i : ℕ)
    (hall : ∀ r ∈ reqs, get_product r.product_id ≠ none) :
    ∃ lis, processLineItems reqs idGen i = .ok lis ∧
      List.Forall₂ (fun (r : LineItemRequest) (li : LineItem) =>
        ∃ p, get_product r.product_id = some p ∧ li.product_id = p.id ∧
          li.title = p.title ∧ li.quantity = r.quantity ∧
          li.unit_price = p.price ∧
          li.total_price = p.price * (r.quantity : ℤ)) reqs lis ∧
      (∀ j (hj : j < lis.length), (lis.get ⟨j, hj⟩).id = idGen (i + j)) := by
  induction reqs generalizing i with
  | nil => exact ⟨[], rfl, List.Forall₂.nil, by intro j hj; simp at hj⟩
  | cons r rest ih =>
    rcases hget : get_product r.product_id with _ | p
    · exact absurd hget (hall r (List.mem_cons_self r rest))
    · rcases ih (i + 1) (fun x hx => hall x (List.mem_cons_of_mem r hx)) with
        ⟨tail, htail, hrel, hids⟩
      have hres : processLineItems (r :: rest) idGen i =
          .ok ({ id := idGen i, product_id := p.id, title := p.title,
                 description := p.description, image_url := p.image_url,
                 quantity := r.quantity, unit_price := p.price,
                 total_price := p.price * (r.quantity : ℤ) } :: tail) := by
        simp [processLineItems, hget, htail]
      refine ⟨_, hres, ?_, ?_⟩
      · exact List.Forall₂.cons ⟨p, hget, rfl, rfl, rfl, rfl, rfl⟩ hrel
      · intro j hj
        match j with
        | 0 => simp
        | j + 1 =>
          have hj' : j < tail.length := by
            simpa using hj
          have := hids j hj'
          simpa [Nat.add_assoc, Nat.add_comm 1 j] using this

/-- **C5.** A create request containing a line item whose product id does
not resolve fails with `ProductNotFound`, and the store is exactly as it was
before the call (no partial session persisted). -/
theorem create_aborts_on_unknown_product (store : Store)
    (req : CheckoutRequest) (session_id : String) (idGen : ℕ → String)
    (now : ℤ)
    (hbad : ∃ r ∈ req.line_items, get_product r.product_id = none) :
    (create_checkout store req session_id idGen now).1 = store ∧
    ∃ pid, (create_checkout store req session_id idGen now).2 =
        .error (.productNotFound pid) ∧ get_product pid = none := by
  rcases processLineItems_error req.line_items idGen 0 hbad with ⟨pid, heq, hnone⟩
  refine ⟨?_, pid, ?_, hnone⟩ <;> simp [create_checkout, heq]

/-- Witness instantiating C5: a create with one valid (`coffee_small`) and
one invalid (`bogus_product`) product id fails and persists nothing. -/
theorem create_aborts_on_unknown_product_witness :
    (create_checkout []
        { line_items := [{ product_id := "coffee_small" },
                         { product_id := "bogus_product" }] }
        "cs_w5" (fun _ => "li_w") 7).1 = [] ∧
    ∃ pid, (create_checkout []
        { line_items := [{ product_id := "coffee_small" },
                         { product_id := "bogus_product" }] }
        "cs_w5" (fun _ => "li_w") 7).2 =
        .error (.productNotFound pid) ∧ get_product pid = none :=
  create_aborts_on_unknown_product []
    { line_items := [{ product_id := "coffee_small" },
                     { product_id := "bogus_product" }] }
    "cs_w5" (fun _ => "li_w") 7
    ⟨{ product_id := "bogus_product" }, by decide, by decide⟩

/-- **C6.** A successful `replace` on a non-terminal session rebuilds line
items, discounts and fulfillment solely from the request: the stored
line-item list corresponds one-to-one, in order, to the requested items
(each freshly resolved against the catalog, with a fresh id, so no item from
before the call survives), the discounts and fulfillment are functions of
the request alone, and `id`/`created_at` are unchanged while `updated_at`
becomes the operation time. -/
theorem replace_rebuilds_state_from_request (store : Store) (sid : String)
    (sd : SessionData) (req : CheckoutRequest) (idGen : ℕ → String) (now : ℤ)
    (hlook : store.lookup sid = some sd)
    (hnc : sd.status ≠ some .COMPLETED) (hncan : sd.status ≠ some .CANCELED)
    (hall : ∀ r ∈ req.line_items, get_product r.product_id ≠ none) :
    ∃ sd',
      (update_checkout store sid req idGen now).1.lookup sid = some sd' ∧
      (update_checkout store sid req idGen now).2 =
        .ok (build_checkout_response sd') ∧
      List.Forall₂ (fun (r : LineItemRequest) (li : LineItem) =>
        ∃ p, get_product r.product_id = some p ∧ li.product_id = p.id ∧
          li.title = p.title ∧ li.quantity = r.quantity ∧
          li.unit_price = p.price ∧
          li.total_price = p.price * (r.quantity : ℤ))
        req.line_items sd'.line_items ∧
      (∀ j (hj : j < sd'.line_items.length),
        (sd'.line_items.get ⟨j, hj⟩).id = idGen j) ∧
      sd'.discounts = processDiscounts sd'.line_items req.discount_codes ∧
      (req.fulfillment = none → sd'.fulfillment = none) ∧
      (∀ rf, req.fulfillment = some rf →
        sd'.fulfillment = some
          { type := "shipping", address := rf.address,
            selected_option_id := rf.selected_option_id,
            available_options := FULFILLMENT_OPTIONS }) ∧
      sd'.id = sd.id ∧ sd'.created_at = sd.created_at ∧
      sd'.updated_at = now := by
  rcases processLineItems_ok req.line_items idGen 0 hall with
    ⟨lis, hres, hrel, hids⟩
  have hterm : ¬(sd.status = some .COMPLETED ∨ sd.status = some .CANCELED) := by
    rintro (h | h)
    exacts [hnc h, hncan h]
  have hupd : update_checkout store sid req idGen now =
      (store.set sid
        { sd with
          line_items := lis, buyer := req.buyer,
          fulfillment :=
            (match req.fulfillment with
             | none => none
             | some f =>
               some { type := "shipping", address := f.address,
                      selected_option_id := f.selected_option_id,
                      available_options := FULFILLMENT_OPTIONS }),
          discounts := processDiscounts lis req.discount_codes,
          updated_at := now },
       .ok (build_checkout_response
        { sd with
          line_items := lis, buyer := req.buyer,
          fulfillment :=
            (match req.fulfillment with
             | none => none
             | some f =>
               some { type := "shipping", address := f.address,
                      selected_option_id := f.selected_option_id,
                      available_options := FULFILLMENT_OPTIONS }),
          discounts := processDiscounts lis req.discount_codes,
          updated_at := now })) := by
    simp [update_checkout, hlook, hterm, hres]
  refine ⟨{ sd with
            line_items := lis, buyer := req.buyer,
            fulfillment :=
              (match req.fulfillment with
               | none => none
               | some f =>
                 some { type := "shipping", address := f.address,
                        selected_option_id := f.selected_option_id,
                        available_options := FULFILLMENT_OPTIONS }),
            discounts := processDiscounts lis req.discount_codes,
            updated_at := now },
         ?_, ?_, hrel, ?_, rfl, ?_, ?_, rfl, rfl, rfl⟩
  · rw [hupd]
    exact store_set_lookup store sid sd _ hlook
  · rw [hupd]
  · intro j hj
    simpa using hids j hj
  · intro hnone
    simp [hnone]
  · intro rf hrf
    simp [hrf]

/-- Witness instantiating C6: replacing a session that previously held a
`latte_medium` item with a one-item `coffee_small` request; the resulting
stored list pairs one-to-one with the request. -/
theorem replace_rebuilds_state_from_request_witness :
    ∃ sd',
      (update_checkout
        [("cs_w6",
          { id := "cs_w6",
            line_items := [{ id := "li_old", product_id := "latte_medium",
                             title := "Medium Latte", quantity := 1,
                             unit_price := 549, total_price := 549 }],
            buyer := none, fulfillment := none, discounts := [],
            status := none, order := none, created_at := 3, updated_at := 3,
            expires_at := 86403 })]
        "cs_w6" { line_items := [{ product_id := "coffee_small" }] }
        (fun i => "li_new_" ++ toString i) 9).1.lookup "cs_w6" = some sd' ∧
      (update_checkout
        [("cs_w6",
          { id := "cs_w6",
            line_items := [{ id := "li_old", product_id := "latte_medium",
                             title := "Medium Latte", quantity := 1,
                             unit_price := 549, total_price := 549 }],
            buyer := none, fulfillment := none, discounts := [],
            status := none, order := none, created_at := 3, updated_at := 3,
            expires_at := 86403 })]
        "cs_w6" { line_items := [{ product_id := "coffee_small" }] }
        (fun i => "li_new_" ++ toString i) 9).2 =
        .ok (build_checkout_response sd') ∧
      List.Forall₂ (fun (r : LineItemRequest) (li : LineItem) =>
        ∃ p, get_product r.product_id = some p ∧ li.product_id = p.id ∧
          li.title = p.title ∧ li.quantity = r.quantity ∧
          li.unit_price = p.price ∧
          li.total_price = p.price * (r.quantity : ℤ))
        [{ product_id := "coffee_small" }] sd'.line_items ∧
      (∀ j (hj : j < sd'.line_items.length),
        (sd'.line_items.get ⟨j, hj⟩).id = "li_new_" ++ toString j) ∧
      sd'.discounts = processDiscounts sd'.line_items [] ∧
      sd'.id = "cs_w6" ∧ sd'.created_at = 3 ∧ sd'.updated_at = 9 := by
  rcases replace_rebuilds_state_from_request
    [("cs_w6",
      { id := "cs_w6",
        line_items := [{ id := "li_old", product_id := "latte_medium",
                         title := "Medium Latte", quantity := 1,
                         unit_price := 549, total_price := 549 }],
        buyer := none, fulfillment := none, discounts := [],
        status := none, order := none, created_at := 3, updated_at := 3,
        expires_at := 86403 })]
    "cs_w6"
    { id := "cs_w6",
      line_items := [{ id := "li_old", product_id := "latte_medium",
                       title := "Medium Latte", quantity := 1,
                       unit_price := 549, total_price := 549 }],
      buyer := none, fulfillment := none, discounts := [],
      status := none, order := none, created_at := 3, updated_at := 3,
      expires_at := 86403 }
    { line_items := [{ product_id := "coffee_small" }] }
    (fun i => "li_new_" ++ toString i) 9 rfl (by simp) (by simp)
    (by intro r hr; simp at hr; subst hr; decide) with
    ⟨sd', h1, h2, h3, h4, h5, _, _, h8, h9, h10⟩
  exact ⟨sd', h1, h2, h3, h4, h5, h8, h9, h10⟩

/-- **C7.** `complete` on a session whose stored status is neither
`COMPLETED` nor `CANCELED` succeeds whenever a payment payload is present:
status becomes `COMPLETED`, an order record is minted, `updated_at` is set —
with no hypothesis about the session's derived (readiness) status. -/
theorem complete_has_no_readiness_gate (store : Store) (sid : String)
    (sd : SessionData) (creq : CompleteRequest) (pay : PaymentInfo)
    (order_id : String) (now : ℤ)
    (hlook : store.lookup sid = some sd)
    (hnc : sd.status ≠ some .COMPLETED) (hncan : sd.status ≠ some .CANCELED)
    (hpay : creq.payment = some pay) :
    ∃ sd',
      (complete_checkout store sid creq order_id now).1.lookup sid =
        some sd' ∧
      (complete_checkout store sid creq order_id now).2 =
        .ok (build_checkout_response sd') ∧
      sd'.status = some .COMPLETED ∧
      sd'.order = some
        { id := "ord_" ++ order_id,
          permalink_url := some ("http://localhost:8000/orders/ord_" ++ order_id),
          created_at := now } ∧
      sd'.updated_at = now ∧
      sd'.line_items = sd.line_items ∧ sd'.id = sd.id ∧
      sd'.created_at = sd.created_at := by
  have hcomp : complete_checkout store sid creq order_id now =
      (store.set sid
        { sd with
          status := some .COMPLETED,
          order := some
            { id := "ord_" ++ order_id,
              permalink_url :=
                some ("http://localhost:8000/orders/ord_" ++ order_id),
              created_at := now },
          updated_at := now },
       .ok (build_checkout_response
        { sd with
          status := some .COMPLETED,
          order := some
            { id := "ord_" ++ order_id,
              permalink_url :=
                some ("http://localhost:8000/orders/ord_" ++ order_id),
              created_at := now },
          updated_at := now })) := by
    simp [complete_checkout, hlook, hnc, hncan, hpay]
  refine ⟨{ sd with
            status := some .COMPLETED,
            order := some
              { id := "ord_" ++ order_id,
                permalink_url :=
                  some ("http://localhost:8000/orders/ord_" ++ order_id),
                created_at := now },
            updated_at := now },
         ?_, ?_, rfl, rfl, rfl, rfl, rfl, rfl⟩
  · rw [hcomp]
    exact store_set_lookup store sid sd _ hlook
  · rw [hcomp]

/-- Witness instantiating C7: a session with an empty cart (derived status
`INCOMPLETE`, far from `READY_FOR_COMPLETE`) still completes successfully
once a payment payload is present. -/
theorem complete_has_no_readiness_gate_witness :
    ∃ sd',
      (complete_checkout
        [("cs_w7",
          { id := "cs_w7", line_items := [], buyer := none,
            fulfillment := none, discounts := [], status := none,
            order := none, created_at := 2, updated_at := 2,
            expires_at := 86402 })]
        "cs_w7" { payment := some {} } "oid_w7" 11).1.lookup "cs_w7" =
        some sd' ∧
      (complete_checkout
        [("cs_w7",
          { id := "cs_w7", line_items := [], buyer := none,
            fulfillment := none, discounts := [], status := none,
            order := none, created_at := 2, updated_at := 2,
            expires_at := 86402 })]
        "cs_w7" { payment := some {} } "oid_w7" 11).2 =
        .ok (build_checkout_response sd') ∧
      sd'.status = some .COMPLETED ∧
      sd'.order = some
        { id := "ord_" ++ "oid_w7",
          permalink_url := some ("http://localhost:8000/orders/ord_" ++ "oid_w7"),
          created_at := 11 } ∧
      sd'.updated_at = 11 ∧
      sd'.line_items = [] ∧ sd'.id = "cs_w7" ∧ sd'.created_at = 2 := by
  rcases complete_has_no_readiness_gate
    [("cs_w7",
      { id := "cs_w7", line_items := [], buyer := none,
        fulfillment := none, discounts := [], status := none,
        order := none, created_at := 2, updated_at := 2,
        expires_at := 86402 })]
    "cs_w7"
    { id := "cs_w7", line_items := [], buyer := none,
      fulfillment := none, discounts := [], status := none,
      order := none, created_at := 2, updated_at := 2,
      expires_at := 86402 }
    { payment := some {} } {} "oid_w7" 11 rfl (by simp) (by simp) rfl with
    ⟨sd', h1, h2, h3, h4, h5, h6, h7, h8⟩
  exact ⟨sd', h1, h2, h3, h4, h5, h6, h7, h8⟩

/-- **C8.** `read` of a stored non-terminal session has no side effect on
the store, and two reads with no intervening mutation return the very same
response (hence identical status, messages and totals). -/
theorem read_is_pure_and_idempotent (store : Store) (sid : String)
    (sd : SessionData)
    (hlook : store.lookup sid = some sd)
    (hnc : sd.status ≠ some .COMPLETED)
    (hncan : sd.status ≠ some .CANCELED) :
    (get_checkout store sid).1 = store ∧
    ∃ resp, (get_checkout store sid).2 = .ok resp ∧
      (get_checkout (get_checkout store sid).1 sid).2 = .ok resp := by
  refine ⟨by simp [get_checkout, hlook], build_checkout_response sd, ?_, ?_⟩ <;>
    simp [get_checkout, hlook]

/-- Witness instantiating C8 at a concrete incomplete session. -/
theorem read_is_pure_and_idempotent_witness :
    (get_checkout
      [("cs_w8",
        { id := "cs_w8", line_items := [], buyer := none, fulfillment := none,
          discounts := [], status := none, order := none, created_at := 1,
          updated_at := 1, expires_at := 86401 })] "cs_w8").1 =
      [("cs_w8",
        { id := "cs_w8", line_items := [], buyer := none, fulfillment := none,
          discounts := [], status := none, order := none, created_at := 1,
          updated_at := 1, expires_at := 86401 })] ∧
    ∃ resp,
      (get_checkout
        [("cs_w8",
          { id := "cs_w8", line_items := [], buyer := none, fulfillment := none,
            discounts := [], status := none, order := none, created_at := 1,
            updated_at := 1, expires_at := 86401 })] "cs_w8").2 = .ok resp ∧
      (get_checkout
        (get_checkout
          [("cs_w8",
            { id := "cs_w8", line_items := [], buyer := none, fulfillment := none,
              discounts := [], status := none, order := none, created_at := 1,
              updated_at := 1, expires_at := 86401 })] "cs_w8").1 "cs_w8").2 =
        .ok resp :=
  read_is_pure_and_idempotent
    [("cs_w8",
      { id := "cs_w8", line_items := [], buyer := none, fulfillment := none,
        discounts := [], status := none, order := none, created_at := 1,
        updated_at := 1, expires_at := 86401 })]
    "cs_w8"
    { id := "cs_w8", line_items := [], buyer := none, fulfillment := none,
      discounts := [], status := none, order := none, created_at := 1,
      updated_at := 1, expires_at := 86401 }
    rfl (by simp) (by simp)

/-- **C2 (counterexample).** The claim as stated is false: an ERROR message
carrying no severity does not block `READY_FOR_COMPLETE`.  With a non-empty
cart, a selected `pickup` option and a severity-less ERROR message, the
deriver returns `READY_FOR_COMPLETE` although an ERROR message exists. -/
theorem status_ready_despite_severityless_error :
    determine_status
      [{ id := "li_w2", product_id := "coffee_small", title := "Small Coffee",
         quantity := 1, unit_price := 299, total_price := 299 }]
      (some { selected_option_id := some "pickup" })
      [{ type := .ERROR, code := "odd", content := "no severity" }] =
      .READY_FOR_COMPLETE ∧
    ∃ m ∈ ([{ type := .ERROR, code := "odd", content := "no severity" }] :
        List Message), m.type = .ERROR := by
  refine ⟨by decide, ⟨{ type := .ERROR, code := "odd", content := "no severity" },
    by simp, rfl⟩⟩

/-- **C2 (amended).** Status derivation: any ERROR with severity
`REQUIRES_BUYER_INPUT` or `REQUIRES_BUYER_REVIEW` forces
`REQUIRES_ESCALATION` even when `RECOVERABLE` errors are also present; when
no such escalating error exists but some ERROR has severity `RECOVERABLE`,
the result is `INCOMPLETE`; and `READY_FOR_COMPLETE` holds iff every ERROR
message carries **no severity** (ERRORs without a severity are ignored by
the deriver — this is the amendment), the line-item list is non-empty,
fulfillment is present with a selected option, and an address is present if
the selected option is `standard` or `express`. -/
theorem status_derivation_rules (line_items : List LineItem)
    (fulfillment : Option Fulfillment) (messages : List Message) :
    ((∃ m ∈ messages, m.type = .ERROR ∧
        (m.severity = some .REQUIRES_BUYER_INPUT ∨
         m.severity = some .REQUIRES_BUYER_REVIEW)) →
      determine_status line_items fulfillment messages =
        .REQUIRES_ESCALATION) ∧
    ((¬∃ m ∈ messages, m.type = .ERROR ∧
        (m.severity = some .REQUIRES_BUYER_INPUT ∨
         m.severity = some .REQUIRES_BUYER_REVIEW)) →
      (∃ m ∈ messages, m.type = .ERROR ∧ m.severity = some .RECOVERABLE) →
      determine_status line_items fulfillment messages = .INCOMPLETE) ∧
    (determine_status line_items fulfillment messages = .READY_FOR_COMPLETE ↔
      ((∀ m ∈ messages, m.type = .ERROR → m.severity = none) ∧
       line_items ≠ [] ∧
       ∃ f, fulfillment = some f ∧ ∃ oid, f.selected_option_id = some oid ∧
         ((oid = "standard" ∨ oid = "express") → f.address ≠ none))) := by
  have hEiff : (messages.any fun m => m.type == MessageType.ERROR &&
      (m.severity == some MessageSeverity.REQUIRES_BUYER_INPUT ||
       m.severity == some MessageSeverity.REQUIRES_BUYER_REVIEW)) = true ↔
      ∃ m ∈ messages, m.type = .ERROR ∧
        (m.severity = some .REQUIRES_BUYER_INPUT ∨
         m.severity = some .REQUIRES_BUYER_REVIEW) := by
    simp [List.any_eq_true]
  have hRiff : (messages.any fun m => m.type == MessageType.ERROR &&
      m.severity == some MessageSeverity.RECOVERABLE) = true ↔
      ∃ m ∈ messages, m.type = .ERROR ∧ m.severity = some .RECOVERABLE := by
    simp [List.any_eq_true]
  refine ⟨?_, ?_, ?_⟩
  · intro hex
    have hEb := hEiff.mpr hex
    simp [determine_status, hEb]
  · intro hnoesc hex
    have hEb : (messages.any fun m => m.type == MessageType.ERROR &&
        (m.severity == some MessageSeverity.REQUIRES_BUYER_INPUT ||
         m.severity == some MessageSeverity.REQUIRES_BUYER_REVIEW)) = false := by
      rcases h : (messages.any fun m => m.type == MessageType.ERROR &&
        (m.severity == some MessageSeverity.REQUIRES_BUYER_INPUT ||
         m.severity == some MessageSeverity.REQUIRES_BUYER_REVIEW)) with _ | _
      · rfl
      · exact absurd (hEiff.mp h) hnoesc
    have hRb := hRiff.mpr hex
    simp [determine_status, hEb, hRb]
  · rcases hEb : (messages.any fun m => m.type == MessageType.ERROR &&
        (m.severity == some MessageSeverity.REQUIRES_BUYER_INPUT ||
         m.severity == some MessageSeverity.REQUIRES_BUYER_REVIEW)) with _ | _
    case true =>
      have hex := hEiff.mp hEb
      constructor
      · intro h
        simp [determine_status, hEb] at h
      · rintro ⟨hnone, -, -⟩
        rcases hex with ⟨m, hm, ht, hs⟩
        have := hnone m hm ht
        rcases hs with h | h <;> rw [this] at h <;> exact Option.noConfusion h
    case false =>
      rcases hRb : (messages.any fun m => m.type == MessageType.ERROR &&
          m.severity == some MessageSeverity.RECOVERABLE) with _ | _
      case true =>
        have hex := hRiff.mp hRb
        constructor
        · intro h
          simp [determine_status, hEb, hRb] at h
        · rintro ⟨hnone, -, -⟩
          rcases hex with ⟨m, hm, ht, hs⟩
          have := hnone m hm ht
          rw [this] at hs
          exact Option.noConfusion hs
      case false =>
        have hnone : ∀ m ∈ messages, m.type = .ERROR → m.severity = none := by
          intro m hm ht
          rcases hsev : m.severity with _ | s
          · rfl
          · exfalso
            cases s
            · exact absurd (hRiff.mpr ⟨m, hm, ht, hsev⟩)
                (by rw [hRb]; exact Bool.false_ne_true)
            · exact absurd (hEiff.mpr ⟨m, hm, ht, Or.inl hsev⟩)
                (by rw [hEb]; exact Bool.false_ne_true)
            · exact absurd (hEiff.mpr ⟨m, hm, ht, Or.inr hsev⟩)
                (by rw [hEb]; exact Bool.false_ne_true)
        rcases hli : line_items.isEmpty with _ | _
        case true =>
          have hline : line_items = [] := List.isEmpty_iff.mp hli
          constructor
          · intro h
            simp [determine_status, hEb, hRb, hli] at h
          · rintro ⟨-, hne, -⟩
            exact absurd hline hne
        case false =>
          have hline : line_items ≠ [] := by
            intro h
            rw [h] at hli
            simp at hli
          rcases fulfillment with _ | f
          · constructor
            · intro h
              simp [determine_status, hEb, hRb, hli] at h
            · rintro ⟨-, -, f, hf, -⟩
              exact Option.noConfusion hf
          · rcases hsel : f.selected_option_id with _ | oid
            · constructor
              · intro h
                simp [determine_status, hEb, hRb, hli, hsel] at h
              · rintro ⟨-, -, f', hf', oid, hoid, -⟩
                rw [(Option.some.injEq .. ▸ hf' : f = f')] at hsel
                rw [hsel] at hoid
                exact Option.noConfusion hoid
            · rcases hcond : ((oid == "standard" || oid == "express") &&
                  f.address == none) with _ | _
              case true =>
                have hstd : (oid = "standard" ∨ oid = "express") ∧
                    f.address = none := by
                  have := hcond
                  simp [Bool.and_eq_true, Bool.or_eq_true] at this
                  exact this
                constructor
                · intro h
                  simp [determine_status, hEb, hRb, hli, hsel, hcond] at h
                · rintro ⟨-, -, f', hf', oid', hoid', haddr⟩
                  have hff : f = f' := by
                    exact Option.some.injEq .. ▸ hf'
                  subst hff
                  rw [hsel] at hoid'
                  have hoo : oid = oid' := Option.some.injEq .. ▸ hoid'
                  subst hoo
                  exact absurd hstd.2 (haddr hstd.1)
              case false =>
                constructor
                · intro _
                  refine ⟨hnone, hline, f, rfl, oid, hsel, ?_⟩
                  intro hstd haddr
                  have : ((oid == "standard" || oid == "express") &&
                      f.address == none) = true := by
                    simp [Bool.and_eq_true, Bool.or_eq_true]
                    exact ⟨hstd, haddr⟩
                  rw [hcond] at this
                  exact Bool.false_ne_true this
                · intro _
                  simp [determine_status, hEb, hRb, hli, hsel, hcond]

/-- Witness instantiating C2's amended characterization: a session with both
a `RECOVERABLE` and a `REQUIRES_BUYER_INPUT` error derives
`REQUIRES_ESCALATION`, not `INCOMPLETE`. -/
theorem status_derivation_rules_witness :
    determine_status
      ([] : List LineItem) none
      [{ type := .ERROR, code := "a", content := "a",
         severity := some .RECOVERABLE },
       { type := .ERROR, code := "b", content := "b",
         severity := some .REQUIRES_BUYER_INPUT }] = .REQUIRES_ESCALATION :=
  (status_derivation_rules [] none
    [{ type := .ERROR, code := "a", content := "a",
       severity := some .RECOVERABLE },
     { type := .ERROR, code := "b", content := "b",
       severity := some .REQUIRES_BUYER_INPUT }]).1
    ⟨{ type := .ERROR, code := "b", content := "b",
       severity := some .REQUIRES_BUYER_INPUT },
     by simp, rfl, Or.inl rfl⟩

/-- Helper: every applied discount record carries the upper-cased form of
some submitted code that validated. -/
theorem processDiscounts_mem (line_items : List LineItem)
    (codes : List String) (d : Discount)
    (hd : d ∈ processDiscounts line_items codes) :
    ∃ c ∈ codes, d.code = c.pyUpper ∧ validate_discount_code c ≠ none := by
  rcases List.mem_filterMap.mp hd with ⟨c, hc, hfc⟩
  rcases hv : validate_discount_code c with _ | info
  · rw [hv] at hfc
    exact Option.noConfusion hfc
  · rw [hv] at hfc
    refine ⟨c, hc, ?_, by simp [hv]⟩
    have := Option.some.injEq .. ▸ hfc
    rw [← this]

/-- Helper: the discount loop applied to codes whose upper-casings are
pairwise distinct yields records with pairwise-distinct codes. -/
theorem processDiscounts_pairwise (line_items : List LineItem)
    (codes : List String)
    (hdist : codes.Pairwise (fun a b => a.pyUpper ≠ b.pyUpper)) :
    (processDiscounts line_items codes).Pairwise
      (fun d e => d.code ≠ e.code) := by
  induction codes with
  | nil => exact List.Pairwise.nil
  | cons c cs ih =>
    rcases hdist with - | ⟨hhead, htail⟩
    rcases hv : validate_discount_code c with _ | info
    · have : processDiscounts line_items (c :: cs) =
          processDiscounts line_items cs := by
        simp [processDiscounts, List.filterMap_cons, hv]
      rw [this]
      exact ih htail
    · have hcons : processDiscounts line_items (c :: cs) =
          { code := c.pyUpper, title := info.title,
            amount :=
              match info.type with
              | .percentage =>
                truncDbl (pyTrueDiv (subtotalOf line_items * info.value) 100)
              | .fixed => min info.value (subtotalOf line_items)
              | .free_shipping => 0 } ::
            processDiscounts line_items cs := by
        simp [processDiscounts, List.filterMap_cons, hv, subtotalOf]
      rw [hcons]
      refine List.Pairwise.cons ?_ (ih htail)
      intro e he hcode
      rcases processDiscounts_mem line_items cs e he with ⟨c', hc', hcode', -⟩
      rw [hcode'] at hcode
      exact hhead c' hc' hcode

/-- **C9 (counterexample).** The claim as stated is false: duplicate
case-variants of a discount code are each applied.  Creating a session with
discount codes `["SAVE5", "save5"]` stores two Discount records whose codes
are both `SAVE5`. -/
theorem create_keeps_duplicate_discount_codes :
    (discountsAt (create_checkout []
        { line_items := [{ product_id := "coffee_small" }],
          discount_codes := ["SAVE5", "save5"] }
        "cs_w9" (fun _ => "li_w9") 4).1 "cs_w9").map (fun d => d.code) =
      ["SAVE5", "SAVE5"] := by decide

/-- **C9 (amended).** For create and replace requests whose submitted
discount-code list has pairwise-distinct upper-casings, the stored session's
applied discounts have pairwise-distinct codes, and every stored discount
code is the upper-cased form of some submitted code.  (Uniqueness is *not*
enforced by the engine itself: duplicate or case-variant submissions each
produce a record — see the counterexample.) -/
theorem stored_discounts_canonical_and_distinct (store : Store)
    (sid : String) (req : CheckoutRequest) (idGen : ℕ → String) (now : ℤ)
    (hdist : req.discount_codes.Pairwise (fun a b => a.pyUpper ≠ b.pyUpper))
    (hall : ∀ r ∈ req.line_items, get_product r.product_id ≠ none) :
    ((discountsAt (create_checkout store req sid idGen now).1 sid).Pairwise
        (fun d e => d.code ≠ e.code) ∧
      ∀ d ∈ discountsAt (create_checkout store req sid idGen now).1 sid,
        ∃ c ∈ req.discount_codes, d.code = c.pyUpper) ∧
    (∀ sd, store.lookup sid = some sd → sd.status ≠ some .COMPLETED →
      sd.status ≠ some .CANCELED →
      ((discountsAt (update_checkout store sid req idGen now).1 sid).Pairwise
          (fun d e => d.code ≠ e.code) ∧
        ∀ d ∈ discountsAt (update_checkout store sid req idGen now).1 sid,
          ∃ c ∈ req.discount_codes, d.code = c.pyUpper)) := by
  rcases processLineItems_ok req.line_items idGen 0 hall with
    ⟨lis, hres, -, -⟩
  constructor
  · have hcreate : discountsAt (create_checkout store req sid idGen now).1 sid =
        processDiscounts lis req.discount_codes := by
      simp only [create_checkout, hres]
      simp only [discountsAt, store_insert_lookup]
    rw [hcreate]
    exact ⟨processDiscounts_pairwise lis req.discount_codes hdist,
      fun d hd => by
        rcases processDiscounts_mem lis req.discount_codes d hd with
          ⟨c, hc, hcode, -⟩
        exact ⟨c, hc, hcode⟩⟩
  · intro sd hlook hnc hncan
    have hterm : ¬(sd.status = some .COMPLETED ∨
        sd.status = some .CANCELED) := by
      rintro (h | h)
      exacts [hnc h, hncan h]
    have hupd : discountsAt (update_checkout store sid req idGen now).1 sid =
        processDiscounts lis req.discount_codes := by
      simp only [update_checkout, hlook]
      simp only [hterm, if_false, reduceIte, hres]
      simp only [discountsAt,
        store_set_lookup store sid sd _ hlook]
    rw [hupd]
    exact ⟨processDiscounts_pairwise lis req.discount_codes hdist,
      fun d hd => by
        rcases processDiscounts_mem lis req.discount_codes d hd with
          ⟨c, hc, hcode, -⟩
        exact ⟨c, hc, hcode⟩⟩

/-! ### Correctness of the binary64 model's building blocks -/

/-- The fuel-driven log2 is exact when given enough fuel. -/
theorem log2fuel_spec (fuel : ℕ) : ∀ n : ℕ, 1 ≤ n → n ≤ fuel →
    2 ^ log2fuel fuel n ≤ n ∧ n < 2 ^ (log2fuel fuel n + 1) := by
  induction fuel with
  | zero => intro n h1 h2; omega
  | succ fuel ih =>
    intro n h1 h2
    by_cases hn : n < 2
    · have hz : log2fuel (fuel + 1) n = 0 := by simp [log2fuel, hn]
      rw [hz]
      constructor <;> simp <;> omega
    · have hrec : log2fuel (fuel + 1) n = log2fuel fuel (n / 2) + 1 := by
        simp [log2fuel, hn]
      have hge : 1 ≤ n / 2 := by omega
      have hle : n / 2 ≤ fuel := by omega
      obtain ⟨l1, l2⟩ := ih (n / 2) hge hle
      rw [hrec]
      have hp1 : (2:ℕ) ^ (log2fuel fuel (n / 2) + 1) =
          2 ^ log2fuel fuel (n / 2) * 2 := pow_succ 2 _
      have hp2 : (2:ℕ) ^ (log2fuel fuel (n / 2) + 1 + 1) =
          2 ^ (log2fuel fuel (n / 2) + 1) * 2 := pow_succ 2 _
      have hdm := Nat.div_add_mod n 2
      have hmul := Nat.div_mul_le_self n 2
      omega

/-- `natLog2` is the binade of `n`. -/
theorem natLog2_spec (n : ℕ) (h : 1 ≤ n) :
    2 ^ natLog2 n ≤ n ∧ n < 2 ^ (natLog2 n + 1) :=
  log2fuel_spec n n h le_rfl

/-- Rounding to nearest never goes below floor division. -/
theorem rneI_ge (num den : ℤ) : num / den ≤ rneI num den := by
  unfold rneI
  dsimp only
  split_ifs <;> omega

/-- Rounding to nearest overshoots `num/den` by at most a half
(multiplicative form, `den > 0`). -/
theorem rneI_le2 (num den : ℤ) (hden : 0 < den) :
    2 * rneI num den * den ≤ 2 * num + den := by
  have hr0 : 0 ≤ num % den := Int.emod_nonneg num (ne_of_gt hden)
  have hr1 : num % den < den := Int.emod_lt_of_pos num hden
  have hdef : num % den = num - den * (num / den) := Int.emod_def num den
  unfold rneI
  dsimp only
  split_ifs with h h' h'' <;> nlinarith [hr0, hr1, hdef]

/-- `expOfI a b` is the binade exponent of `a/b`:
`2^(expOfI a b) ≤ a/b < 2^(expOfI a b + 1)` for positive `a`, `b`. -/
theorem expOfI_spec (a b : ℤ) (ha : 0 < a) (hb : 0 < b) :
    (2:ℚ) ^ expOfI a b ≤ (a:ℚ) / b ∧ (a:ℚ) / b < (2:ℚ) ^ (expOfI a b + 1) := by
  have hbQ : (0:ℚ) < b := by exact_mod_cast hb
  have h2pos : ∀ z : ℤ, (0:ℚ) < 2 ^ z := fun z => zpow_pos (by norm_num) z
  obtain ⟨ha1, ha2⟩ := natLog2_spec a.toNat (by omega)
  obtain ⟨hb1, hb2⟩ := natLog2_spec b.toNat (by omega)
  set la := natLog2 a.toNat with hla
  set lb := natLog2 b.toNat with hlb
  have hcaA : ((a.toNat : ℕ) : ℚ) = (a:ℚ) := by
    have h := Int.toNat_of_nonneg ha.le
    exact_mod_cast congrArg (fun z : ℤ => (z : ℚ)) h
  have hcaB : ((b.toNat : ℕ) : ℚ) = (b:ℚ) := by
    have h := Int.toNat_of_nonneg hb.le
    exact_mod_cast congrArg (fun z : ℤ => (z : ℚ)) h
  have hA1 : (2:ℚ) ^ (la:ℤ) ≤ (a:ℚ) := by
    have h : ((2 ^ la : ℕ) : ℚ) ≤ ((a.toNat : ℕ) : ℚ) := by exact_mod_cast ha1
    rw [hcaA] at h
    push_cast at h
    rwa [zpow_natCast]
  have hA2 : (a:ℚ) < 2 ^ ((la:ℤ) + 1) := by
    have h : ((a.toNat : ℕ) : ℚ) < ((2 ^ (la + 1) : ℕ) : ℚ) := by exact_mod_cast ha2
    rw [hcaA] at h
    push_cast at h
    have hz : ((la:ℤ) + 1) = (((la + 1 : ℕ)) : ℤ) := by push_cast; ring
    rw [hz, zpow_natCast]
    exact_mod_cast h
  have hB1 : (2:ℚ) ^ (lb:ℤ) ≤ (b:ℚ) := by
    have h : ((2 ^ lb : ℕ) : ℚ) ≤ ((b.toNat : ℕ) : ℚ) := by exact_mod_cast hb1
    rw [hcaB] at h
    push_cast at h
    rwa [zpow_natCast]
  have hB2 : (b:ℚ) < 2 ^ ((lb:ℤ) + 1) := by
    have h : ((b.toNat : ℕ) : ℚ) < ((2 ^ (lb + 1) : ℕ) : ℚ) := by exact_mod_cast hb2
    rw [hcaB] at h
    push_cast at h
    have hz : ((lb:ℤ) + 1) = (((lb + 1 : ℕ)) : ℤ) := by push_cast; ring
    rw [hz, zpow_natCast]
    exact_mod_cast h
  have hup : (a:ℚ) / b < (2:ℚ) ^ ((la:ℤ) - lb + 1) := by
    rw [div_lt_iff hbQ]
    calc (a:ℚ) < 2 ^ ((la:ℤ) + 1) := hA2
      _ = 2 ^ ((la:ℤ) - lb + 1) * 2 ^ (lb:ℤ) := by
          rw [← zpow_add₀ (two_ne_zero)]
          congr 1
          ring
      _ ≤ 2 ^ ((la:ℤ) - lb + 1) * b :=
          mul_le_mul_of_nonneg_left hB1 (h2pos _).le
  have hlo : (2:ℚ) ^ ((la:ℤ) - lb - 1) < (a:ℚ) / b := by
    rw [lt_div_iff hbQ]
    calc (2:ℚ) ^ ((la:ℤ) - lb - 1) * b
        < 2 ^ ((la:ℤ) - lb - 1) * 2 ^ ((lb:ℤ) + 1) :=
          mul_lt_mul_of_pos_left hB2 (h2pos _)
      _ = 2 ^ (la:ℤ) := by
          rw [← zpow_add₀ (two_ne_zero)]
          congr 1
          ring
      _ ≤ a := hA1
  have hok_iff : ∀ e : ℤ,
      (if 0 ≤ e then decide (b * 2 ^ e.toNat ≤ a)
       else decide (b ≤ a * 2 ^ (-e).toNat)) = true ↔
      (2:ℚ) ^ e ≤ (a:ℚ) / b := by
    intro e
    by_cases h0 : 0 ≤ e
    · rw [if_pos h0, decide_eq_true_eq, le_div_iff hbQ]
      have hcast : (2:ℚ) ^ e = ((2 ^ e.toNat : ℤ) : ℚ) := by
        push_cast
        rw [← zpow_natCast (2:ℚ) e.toNat, Int.toNat_of_nonneg h0]
      rw [hcast, ← Int.cast_mul, Int.cast_le]
      constructor <;> intro hh <;> linarith [hh]
    · rw [if_neg h0, decide_eq_true_eq, le_div_iff hbQ]
      have hk : ((-e).toNat : ℤ) = -e := Int.toNat_of_nonneg (by omega)
      have hpk : (0:ℚ) < 2 ^ ((-e).toNat : ℕ) := by positivity
      have hcast : (2:ℚ) ^ e * 2 ^ ((-e).toNat : ℕ) = 1 := by
        rw [← zpow_natCast (2:ℚ) (-e).toNat, hk, ← zpow_add₀ (two_ne_zero)]
        simp
      constructor
      · intro h
        have h' : ((b : ℤ) : ℚ) ≤ ((a * 2 ^ (-e).toNat : ℤ) : ℚ) := by
          exact_mod_cast h
        push_cast at h'
        have key := mul_le_mul_of_nonneg_left h' (h2pos e).le
        have hval : (2:ℚ) ^ e * ((a:ℚ) * 2 ^ ((-e).toNat : ℕ)) = a := by
          calc (2:ℚ) ^ e * ((a:ℚ) * 2 ^ ((-e).toNat : ℕ))
              = (a:ℚ) * ((2:ℚ) ^ e * 2 ^ ((-e).toNat : ℕ)) := by ring
            _ = a := by rw [hcast]; ring
        linarith [key, hval]
      · intro h
        have key : (2:ℚ) ^ e * b * 2 ^ ((-e).toNat : ℕ) ≤
            (a:ℚ) * 2 ^ ((-e).toNat : ℕ) :=
          mul_le_mul_of_nonneg_right h hpk.le
        have hb' : (b:ℚ) ≤ (a:ℚ) * 2 ^ ((-e).toNat : ℕ) := by
          nlinarith [key, hcast]
        exact_mod_cast hb'
  have hexp : expOfI a b =
      if (if 0 ≤ (la:ℤ) - lb then decide (b * 2 ^ ((la:ℤ) - lb).toNat ≤ a)
          else decide (b ≤ a * 2 ^ (-((la:ℤ) - lb)).toNat)) = true
      then (la:ℤ) - lb else (la:ℤ) - lb - 1 := rfl
  rcases hok : (if 0 ≤ (la:ℤ) - lb then decide (b * 2 ^ ((la:ℤ) - lb).toNat ≤ a)
      else decide (b ≤ a * 2 ^ (-((la:ℤ) - lb)).toNat)) with _ | _
  · have he : expOfI a b = (la:ℤ) - lb - 1 := by
      rw [hexp, hok]
      simp
    rw [he]
    constructor
    · linarith [hlo]
    · have hnot : ¬ (2:ℚ) ^ ((la:ℤ) - lb) ≤ (a:ℚ) / b := by
        rw [← hok_iff ((la:ℤ) - lb), hok]
        simp
      push_neg at hnot
      calc (a:ℚ) / b < 2 ^ ((la:ℤ) - lb) := hnot
        _ = 2 ^ ((la:ℤ) - lb - 1 + 1) := by congr 1; ring
  · have he : expOfI a b = (la:ℤ) - lb := by
      rw [hexp, hok]
      simp
    rw [he]
    exact ⟨(hok_iff _).mp hok, hup⟩

/-- If `a/b < 2^c` then the binade exponent is below `c`. -/
theorem expOfI_lt (a b : ℤ) (ha : 0 < a) (hb : 0 < b) (c : ℤ)
    (h : (a:ℚ) / b < (2:ℚ) ^ c) : expOfI a b < c := by
  by_contra hc
  push_neg at hc
  have h1 := (expOfI_spec a b ha hb).1
  have h2 : (2:ℚ) ^ c ≤ (2:ℚ) ^ expOfI a b :=
    zpow_le_zpow_right₀ (by norm_num) hc
  linarith

/-- Rounding an integer divided by one changes nothing. -/
theorem rneI_one (m : ℤ) : rneI m 1 = m := by
  unfold rneI
  dsimp only
  simp

/-- Shape of `posPair` in the sub-integer-granularity regime. -/
theorem posPair_eq (a b : ℤ) (he : expOfI a b < 52) :
    posPair a b =
      ⟨rneI (a * 2 ^ (52 - expOfI a b).toNat) b, expOfI a b - 52⟩ := by
  unfold posPair
  dsimp only
  rw [if_neg (by omega : ¬ (0:ℤ) ≤ expOfI a b - 52),
    show -(expOfI a b - 52) = 52 - expOfI a b from by ring]

/-- Value of a `Dbl` with a negative exponent. -/
theorem toRat_neg_exp (m : ℤ) (s : ℤ) (ns : ℕ) (hs : s = -(ns:ℤ)) :
    (Dbl.mk m s).toRat = (m:ℚ) / 2 ^ ns := by
  unfold Dbl.toRat
  rw [hs, zpow_neg, zpow_natCast, div_eq_mul_inv]

/-- The rounded value of `a/b` at granularity `2^(-ns)` overshoots by at
most half a grid step and never drops below any integer `≤ a/b`. -/
theorem roundPos_bounds (a b : ℤ) (ha : 0 < a) (hb : 0 < b)
    (he : expOfI a b < 52) :
    ((rneI (a * 2 ^ (52 - expOfI a b).toNat) b : ℚ) /
        2 ^ (52 - expOfI a b).toNat ≤
      (a:ℚ) / b + 1 / (2 * 2 ^ (52 - expOfI a b).toNat)) ∧
    (∀ k : ℤ, (k:ℚ) ≤ (a:ℚ) / b →
      (k:ℚ) ≤ (rneI (a * 2 ^ (52 - expOfI a b).toNat) b : ℚ) /
        2 ^ (52 - expOfI a b).toNat) := by
  set ns := (52 - expOfI a b).toNat with hns
  have hbQ : (0:ℚ) < b := by exact_mod_cast hb
  have h2ns : (0:ℚ) < 2 ^ ns := by positivity
  constructor
  · have hZ := rneI_le2 (a * 2 ^ ns) b hb
    have hQ : (2:ℚ) * (rneI (a * 2 ^ ns) b : ℚ) * b ≤
        2 * ((a:ℚ) * 2 ^ ns) + b := by
      exact_mod_cast hZ
    rw [div_add_div _ _ (ne_of_gt hbQ) (by positivity),
      div_le_div_iff h2ns (by positivity)]
    nlinarith [hQ, h2ns, hbQ]
  · intro k hk
    have hkb : k * b ≤ a := by
      have h' : (k:ℚ) * b ≤ a := (le_div_iff hbQ).mp hk
      exact_mod_cast h'
    have hkb2 : (k * 2 ^ ns) * b ≤ a * 2 ^ ns := by
      have hpow : (0:ℤ) ≤ 2 ^ ns := by positivity
      nlinarith [mul_le_mul_of_nonneg_right hkb hpow]
    have hediv : k * 2 ^ ns ≤ (a * 2 ^ ns) / b :=
      (Int.le_ediv_iff_mul_le hb).mpr hkb2
    have hm_ge : k * 2 ^ ns ≤ rneI (a * 2 ^ ns) b :=
      le_trans hediv (rneI_ge _ _)
    have hQ : (k:ℚ) * 2 ^ ns ≤ (rneI (a * 2 ^ ns) b : ℚ) := by
      exact_mod_cast hm_ge
    rw [le_div_iff h2ns]
    exact hQ

/-- `float(n)` is exact for `0 < n < 2^52`: the stored mantissa is
`n * 2^ns` at exponent `-ns`. -/
theorem floatOfInt_spec (n : ℤ) (h0 : 0 < n) (h1 : n < 2 ^ 52) :
    ∃ ns : ℕ, floatOfInt n = ⟨n * 2 ^ ns, -(ns:ℤ)⟩ := by
  have hlt : expOfI n 1 < 52 := by
    apply expOfI_lt n 1 h0 one_pos
    simp only [Int.cast_one, div_one]
    have : (n:ℚ) < ((2 ^ 52 : ℤ) : ℚ) := by exact_mod_cast h1
    calc (n:ℚ) < ((2 ^ 52 : ℤ) : ℚ) := this
      _ = (2:ℚ) ^ (52:ℤ) := by norm_num
  refine ⟨(52 - expOfI n 1).toNat, ?_⟩
  have hshape : floatOfInt n = posPair n 1 := by
    unfold floatOfInt roundPair
    rw [if_neg (by omega : ¬ (1:ℤ) ≤ 0), if_neg (by omega : ¬ n < 0),
      if_neg (by omega : ¬ n = 0)]
  rw [hshape, posPair_eq n 1 hlt, rneI_one]
  have hexp : expOfI n 1 - 52 = -(((52 - expOfI n 1).toNat : ℕ) : ℤ) := by
    rw [Int.toNat_of_nonneg (by omega)]
    ring
  rw [hexp]

/-- Python `int(t * 0.08)` equals the exact mathematical `⌊8t/100⌋` for all
`0 ≤ t < 2^52`: in that range the float detour can never cross an integer
boundary. -/
theorem pyMul008_trunc (t : ℤ) (h0 : 0 ≤ t) (h1 : t < 2 ^ 52) :
    truncDbl (pyMul008 t) = ⌊(8 * (t:ℚ)) / 100⌋ := by
  rcases eq_or_lt_of_le h0 with heq | hpos
  · rw [← heq]
    have hL : truncDbl (pyMul008 0) = 0 := by decide
    rw [hL]
    norm_num
  · obtain ⟨ns0, hfl⟩ := floatOfInt_spec t hpos h1
    have hmul : pyMul008 t =
        roundPair (t * 2 ^ ns0 * 5764607523034235) (2 ^ (ns0 + 56)) := by
      unfold pyMul008 mulDbl c08d
      rw [hfl]
      dsimp only
      rw [if_neg (by omega : ¬ (0:ℤ) ≤ -(ns0:ℤ) + -56),
        show (-((-(ns0:ℤ)) + -56)).toNat = ns0 + 56 from by omega]
    set a := t * 2 ^ ns0 * 5764607523034235 with ha_def
    set b := (2:ℤ) ^ (ns0 + 56) with hb_def
    have ha : 0 < a := by
      apply mul_pos (mul_pos hpos (by positivity)) (by norm_num)
    have hb : 0 < b := by positivity
    have hvalQ : (a:ℚ) / b = (t:ℚ) * c08 := by
      rw [ha_def, hb_def, c08]
      push_cast
      field_simp
      ring
    have hPlt : (a:ℚ) / b < (2:ℚ) ^ (49:ℤ) := by
      rw [hvalQ]
      have ht : (t:ℚ) < 2 ^ 52 := by exact_mod_cast h1
      have htpos : (0:ℚ) < t := by exact_mod_cast hpos
      have hc : c08 < 1/8 := by rw [c08]; norm_num
      have hc0 : (0:ℚ) < c08 := by rw [c08]; norm_num
      have h49 : (2:ℚ) ^ (49:ℤ) = 2 ^ 52 * (1/8) := by norm_num
      rw [h49]
      nlinarith [ht, htpos, hc, hc0]
    have he49 : expOfI a b < 49 := expOfI_lt a b ha hb 49 hPlt
    have he52 : expOfI a b < 52 := by omega
    have hshape : pyMul008 t =
        ⟨rneI (a * 2 ^ (52 - expOfI a b).toNat) b, expOfI a b - 52⟩ := by
      rw [hmul]
      show roundPair a b = _
      unfold roundPair
      rw [if_neg (by omega : ¬ b ≤ 0), if_neg (by omega : ¬ a < 0),
        if_neg (by omega : ¬ a = 0)]
      exact posPair_eq a b he52
    obtain ⟨hub, hlb⟩ := roundPos_bounds a b ha hb he52
    set e := expOfI a b with he_def
    set ns := (52 - e).toNat with hns_def
    set m := rneI (a * 2 ^ ns) b with hm_def
    have hns4 : 4 ≤ ns := by omega
    set k := (2 * t) / 25 with hk_def
    have hk25 := Int.ediv_add_emod (2 * t) 25
    have hr0 : 0 ≤ (2 * t) % 25 := Int.emod_nonneg _ (by norm_num)
    have hr1 : (2 * t) % 25 < 25 := Int.emod_lt_of_pos _ (by norm_num)
    have hk0 : 0 ≤ k := Int.ediv_nonneg (by omega) (by norm_num)
    have hk1 : (k:ℚ) ≤ 2 * (t:ℚ) / 25 := by
      rw [le_div_iff (by norm_num : (0:ℚ) < 25)]
      have hz : (25 * k : ℤ) ≤ 2 * t := by omega
      have hz' : ((25 * k : ℤ) : ℚ) ≤ ((2 * t : ℤ) : ℚ) := by exact_mod_cast hz
      push_cast at hz'
      linarith
    have hk2 : 2 * (t:ℚ) / 25 ≤ (k:ℚ) + 24/25 := by
      rw [div_le_iff (by norm_num : (0:ℚ) < 25)]
      have hz : (2 * t : ℤ) ≤ 25 * k + 24 := by omega
      have hz' : ((2 * t : ℤ) : ℚ) ≤ ((25 * k + 24 : ℤ) : ℚ) := by
        exact_mod_cast hz
      push_cast at hz'
      linarith
    have hPsplit : (t:ℚ) * c08 = 2 * (t:ℚ) / 25 + 3 * (t:ℚ) / (25 * 2 ^ 56) := by
      rw [c08]
      field_simp
      ring
    have htail0 : 0 ≤ 3 * (t:ℚ) / (25 * 2 ^ 56) := by positivity
    have htail : 3 * (t:ℚ) / (25 * 2 ^ 56) ≤ 3/400 := by
      rw [div_le_div_iff (by positivity) (by norm_num)]
      have ht : (t:ℚ) ≤ 2 ^ 52 := by exact_mod_cast h1.le
      nlinarith [ht]
    have hHalf : 1 / (2 * (2:ℚ) ^ ns) ≤ 1/32 := by
      have h16 : (16:ℚ) ≤ 2 ^ ns := by
        calc (16:ℚ) = 2 ^ 4 := by norm_num
          _ ≤ 2 ^ ns := pow_le_pow_right (by norm_num) hns4
      rw [div_le_div_iff (by positivity) (by norm_num)]
      linarith
    have h2nsQ : (0:ℚ) < 2 ^ ns := by positivity
    have hub' : (m:ℚ) / 2 ^ ns < (k:ℚ) + 1 := by
      have hP_ub : (a:ℚ) / b ≤ (k:ℚ) + 24/25 + 3/400 := by
        rw [hvalQ, hPsplit]
        linarith
      calc (m:ℚ) / 2 ^ ns ≤ (a:ℚ) / b + 1 / (2 * 2 ^ ns) := hub
        _ ≤ (k:ℚ) + 24/25 + 3/400 + 1/32 := by linarith
        _ < k + 1 := by
            linarith [show (24:ℚ)/25 + 3/400 + 1/32 < 1 from by norm_num]
    have hlb' : (k:ℚ) ≤ (m:ℚ) / 2 ^ ns := by
      apply hlb
      rw [hvalQ, hPsplit]
      linarith
    have hmk : k * 2 ^ ns ≤ m := by
      have hq := (le_div_iff h2nsQ).mp hlb'
      exact_mod_cast hq
    have hmk2 : m < (k + 1) * 2 ^ ns := by
      have hq := (div_lt_iff h2nsQ).mp hub'
      exact_mod_cast hq
    have hm0 : 0 ≤ m := by nlinarith [hmk, hk0, (by positivity : (0:ℤ) < 2 ^ ns)]
    have htr : truncDbl (pyMul008 t) = Int.tdiv m (2 ^ ns) := by
      rw [hshape]
      unfold truncDbl
      dsimp only
      rw [if_neg (by omega : ¬ (0:ℤ) ≤ e - 52),
        show (-(e - 52)).toNat = ns from by omega]
    have hediv_eq : m / (2 ^ ns : ℤ) = k := by
      have hpos2 : (0:ℤ) < 2 ^ ns := by positivity
      have hle : k ≤ m / 2 ^ ns := (Int.le_ediv_iff_mul_le hpos2).mpr hmk
      have hlt : m / 2 ^ ns < k + 1 := (Int.ediv_lt_iff_lt_mul hpos2).mpr hmk2
      omega
    have htdiv : Int.tdiv m (2 ^ ns) = m / (2 ^ ns : ℤ) :=
      Int.tdiv_eq_ediv hm0 (by positivity)
    have hrhs : ⌊(8 * (t:ℚ)) / 100⌋ = k := by
      have hform : (8 * (t:ℚ)) / 100 = ((2 * t : ℤ) : ℚ) / ((25:ℕ) : ℚ) := by
        push_cast
        ring
      rw [hform, Rat.floor_intCast_div_natCast]
      norm_num [hk_def]
    rw [htr, htdiv, hediv_eq, hrhs]

/-- **C3 (counterexample).** The claim as stated is false: the source
computes `int(taxable * 0.08)` in binary64 floating point, which deviates
from the exact mathematical floor for large integer inputs.  At a line item
of total price `2^56` (no discounts), the calculator returns tax
`5764607523034235` while the exact `⌊0.08 × 2^56⌋` is `5764607523034234`. -/
theorem tax_deviates_from_exact_floor_at_2pow56 :
    (calculate_totals
      [{ id := "li_w3", product_id := "p_w3", title := "t", quantity := 1,
         unit_price := 72057594037927936,
         total_price := 72057594037927936 }]
      [] none).tax = 5764607523034235 ∧
    ⌊(8 * ((72057594037927936 : ℤ) : ℚ)) / 100⌋ = 5764607523034234 := by
  constructor
  · decide
  · have hform : (8 * ((72057594037927936 : ℤ) : ℚ)) / 100 =
        ((144115188075855872 : ℤ) : ℚ) / ((25:ℕ) : ℚ) := by norm_num
    rw [hform, Rat.floor_intCast_div_natCast]
    decide

/-- **C3 (amended).** For every list of line items and discounts with
`taxable := max 0 (subtotal − discountAmount) < 2^52` — which covers any
realistic monetary amount — the calculator's tax equals the exact
mathematical `⌊8·taxable/100⌋`; beyond that range the binary64 computation
can deviate (see the counterexample at `2^56`). -/
theorem tax_is_exact_floor_below_2pow52 (line_items : List LineItem)
    (discounts : List Discount) (fulfillment : Option Fulfillment)
    (hsmall : max 0 (subtotalOf line_items -
      (discounts.map (fun d => d.amount)).sum) < 2 ^ 52) :
    (calculate_totals line_items discounts fulfillment).tax =
      ⌊(8 * ((max 0 (subtotalOf line_items -
          (discounts.map (fun d => d.amount)).sum) : ℤ) : ℚ)) / 100⌋ := by
  have h0 : (0:ℤ) ≤ max 0 (subtotalOf line_items -
      (discounts.map (fun d => d.amount)).sum) := le_max_left _ _
  have h := pyMul008_trunc _ h0 hsmall
  simpa [calculate_totals] using h

/-- Witness instantiating C3's amended theorem at the spec's worked example:
subtotal 1098, discount 219, taxable 879, tax `⌊8·879/100⌋ = 70`. -/
theorem tax_is_exact_floor_below_2pow52_witness :
    (calculate_totals
      [{ id := "li_w3b", product_id := "latte_medium", title := "Medium Latte",
         quantity := 2, unit_price := 549, total_price := 1098 }]
      [{ code := "DEMO20", title := "Demo Discount", amount := 219 }]
      none).tax =
      ⌊(8 * ((max 0 (subtotalOf
          ([{ id := "li_w3b", product_id := "latte_medium",
              title := "Medium Latte", quantity := 2, unit_price := 549,
              total_price := 1098 }] : List LineItem) -
          (([{ code := "DEMO20", title := "Demo Discount",
               amount := 219 }] : List Discount).map
            (fun d => d.amount)).sum) : ℤ) : ℚ)) / 100⌋ ∧
    (calculate_totals
      [{ id := "li_w3b", product_id := "latte_medium", title := "Medium Latte",
         quantity := 2, unit_price := 549, total_price := 1098 }]
      [{ code := "DEMO20", title := "Demo Discount", amount := 219 }]
      none).tax = 70 :=
  ⟨tax_is_exact_floor_below_2pow52
    [{ id := "li_w3b", product_id := "latte_medium", title := "Medium Latte",
       quantity := 2, unit_price := 549, total_price := 1098 }]
    [{ code := "DEMO20", title := "Demo Discount", amount := 219 }]
    none (by decide), by decide⟩

/-- Witness instantiating C9's amended theorem: distinct codes
`["DEMO20", "FREESHIP"]` produce two records with distinct codes, each the
upper-casing of a submitted code. -/
theorem stored_discounts_canonical_and_distinct_witness :
    (discountsAt (create_checkout []
        { line_items := [{ product_id := "coffee_small" }],
          discount_codes := ["DEMO20", "FREESHIP"] }
        "cs_w9b" (fun _ => "li_w9b") 4).1 "cs_w9b").Pairwise
      (fun d e => d.code ≠ e.code) ∧
    ∀ d ∈ discountsAt (create_checkout []
        { line_items := [{ product_id := "coffee_small" }],
          discount_codes := ["DEMO20", "FREESHIP"] }
        "cs_w9b" (fun _ => "li_w9b") 4).1 "cs_w9b",
      ∃ c ∈ ["DEMO20", "FREESHIP"], d.code = c.pyUpper :=
  (stored_discounts_canonical_and_distinct []
    "cs_w9b"
    { line_items := [{ product_id := "coffee_small" }],
      discount_codes := ["DEMO20", "FREESHIP"] }
    (fun _ => "li_w9b") 4
    (by decide)
    (by intro r hr; simp at hr; subst hr; decide)).1

/-- Witness instantiating C10 at the unknown option id `drone`. -/
theorem unknown_selected_option_gives_zero_shipping_witness :
    (calculate_totals
      [{ id := "li_w", product_id := "coffee_small", title := "Small Coffee",
         quantity := 1, unit_price := 299, total_price := 299 }]
      []
      (some { selected_option_id := some "drone" })).shipping = 0 :=
  unknown_selected_option_gives_zero_shipping
    [{ id := "li_w", product_id := "coffee_small", title := "Small Coffee",
       quantity := 1, unit_price := 299, total_price := 299 }]
    [] { selected_option_id := some "drone" } "drone" rfl (by decide)

end UCP
